import Mathlib

/-!
Verification of the Server-Monitor agent (src/agent.py) against its
specification.  The Python source is shallowly embedded: pure computations
become Lean functions, the process-wide mutable globals
(PREVIOUS_STATIC_IPS, NOTIFICATIONS) become an explicit AgentState value,
network and process probes become explicit parameters describing the
environment (the response each HTTP POST receives, the set of running
process names, the set of open TCP ports), and the two potentially
non-terminating retry loops take a fuel parameter.
-/

namespace ServerMonitor

/-! ## Data model: the Snapshot produced by collect_system_info -/

/-- The network_data sub-record of a Snapshot.  In the source the two speeds
are formatted into strings ("%.2f Mbps") already inside collect_system_info,
so downstream consumers see strings. -/
structure NetworkData where
  upload_speed_mbps : String
  download_speed_mbps : String
deriving DecidableEq, Repr

/-- The ip_addresses sub-record of a Snapshot (get_ip_addresses). -/
structure IpAddresses where
  internal_ip : String
  external_ip : String
  static_ips : List String
deriving DecidableEq, Repr

/-- The general_info sub-record of a Snapshot.  Utilization percentages are
Python floats; they are modelled as rationals. -/
structure GeneralInfo where
  computer_name : String
  cpu_usage : ℚ
  memory_usage : ℚ
  disk_usage : ℚ
  network_data : NetworkData
  ip_addresses : IpAddresses
deriving DecidableEq, Repr

/-- One entry of the application_info mapping produced by
collect_application_status: the liveness boolean and the configured process
name. -/
structure ApplicationEntry where
  status : Bool
  process_name : String
deriving DecidableEq, Repr

/-- The application_info mapping of a Snapshot.  Its key set is exactly the
configured APPLICATIONS registry, so it is modelled as a record with one
field per configured application. -/
structure ApplicationInfo where
  smartcare : ApplicationEntry
  sql_server : ApplicationEntry
  smartlink : ApplicationEntry
  etims : ApplicationEntry
  tims : ApplicationEntry
deriving DecidableEq, Repr

/-- A Snapshot: the system_info dictionary built by collect_system_info.
The timestamp (time.time(), seconds since epoch) is modelled as a
rational. -/
structure SystemInfo where
  general_info : GeneralInfo
  application_info : ApplicationInfo
  timestamp : ℚ
deriving DecidableEq, Repr

/-- The configured notification thresholds (CPU_USAGE_THRESHOLD,
MEMORY_USAGE_THRESHOLD, DISK_USAGE_THRESHOLD), environment-sourced with
default 80. -/
structure Thresholds where
  cpu_usage_threshold : ℚ
  memory_usage_threshold : ℚ
  disk_usage_threshold : ℚ
deriving DecidableEq, Repr

/-- The process-wide mutable state of the agent: the globals
PREVIOUS_STATIC_IPS and NOTIFICATIONS of src/agent.py. -/
structure AgentState where
  previous_static_ips : List String
  notifications : List String
deriving DecidableEq, Repr

/-! ## RetryingHttpSink: send_data_to_server (src/agent.py lines 266-292) -/

/-- What one POST to the central server comes back with, as observed by
send_data_to_server: an HTTP response carrying a status code, or a
transport-level failure (aiohttp.ClientError: connection refused, timeout,
TLS error). -/
inductive AttemptResult where
  | status (code : ℕ)
  | transportError
deriving DecidableEq, Repr

/-- Observable state of one run of send_data_to_server: the local counter
`retries`, the number of POSTs issued so far (`posts`), the backoff sleeps
performed in order (`sleeps`), and the number of non-200 warning log lines
(`warnings`). -/
structure SendState where
  retries : ℕ
  posts : ℕ
  sleeps : List ℚ
  warnings : ℕ
deriving DecidableEq, Repr

/-- How a run of send_data_to_server ends: `success` (status 200, info log,
return), `gaveUp` (the while-condition retries < MAX_RETRIES failed, the
critical "Max retries reached" line is logged and the function returns
normally — it never raises into the caller), or `fuelOut` (the modelling
fuel ran out while the loop was still running). -/
inductive SendResult where
  | success (s : SendState)
  | gaveUp (s : SendState)
  | fuelOut (s : SendState)
deriving DecidableEq, Repr

/-- The state carried by a SendResult. -/
def SendResult.state : SendResult → SendState
  | SendResult.success s => s
  | SendResult.gaveUp s => s
  | SendResult.fuelOut s => s

/-- The `while retries < MAX_RETRIES` loop of send_data_to_server.  `net n`
is the outcome of the (n+1)-th POST.  Faithful to the source: a 200
response returns; any other status logs a warning and falls through to the
next loop iteration without touching `retries`; a ClientError increments
`retries`, computes wait_time = BACKOFF_FACTOR ** retries (with the already
incremented counter, so the first wait is BACKOFF_FACTOR^1) and sleeps
before re-entering the loop. -/
def sendLoop (maxRetries : ℕ) (backoffFactor : ℚ) (net : ℕ → AttemptResult) :
    ℕ → SendState → SendResult
  | 0, s => SendResult.fuelOut s
  | fuel + 1, s =>
    if s.retries < maxRetries then
      match net s.posts with
      | AttemptResult.status code =>
        if code = 200 then
          SendResult.success { s with posts := s.posts + 1 }
        else
          sendLoop maxRetries backoffFactor net fuel
            { s with posts := s.posts + 1, warnings := s.warnings + 1 }
      | AttemptResult.transportError =>
        sendLoop maxRetries backoffFactor net fuel
          { s with
              retries := s.retries + 1,
              posts := s.posts + 1,
              sleeps := s.sleeps ++ [backoffFactor ^ (s.retries + 1)] }
    else
      SendResult.gaveUp s

/-- send_data_to_server: run the retry loop from the initial state
(retries = 0, nothing posted, no sleeps, no warnings). -/
def send_data_to_server (maxRetries : ℕ) (backoffFactor : ℚ)
    (net : ℕ → AttemptResult) (fuel : ℕ) : SendResult :=
  sendLoop maxRetries backoffFactor net fuel ⟨0, 0, [], 0⟩

/-- When every POST comes back with the same non-200 status, the loop body
neither returns nor increments `retries`, so the loop re-POSTs once per
iteration indefinitely: after `fuel` iterations it is still running with
`retries = 0`, no backoff sleeps, and one warning per POST. -/
theorem sendLoop_non200_runs_forever (maxRetries : ℕ) (backoffFactor : ℚ)
    (code : ℕ) (hc : ¬ code = 200) (hm : 0 < maxRetries) :
    ∀ fuel p w : ℕ, ∀ sl : List ℚ,
      sendLoop maxRetries backoffFactor (fun _ => AttemptResult.status code) fuel
          ⟨0, p, sl, w⟩ =
        SendResult.fuelOut ⟨0, p + fuel, sl, w + fuel⟩ := by
  intro fuel
  induction fuel with
  | zero => intro p w sl; simp [sendLoop]
  | succ n ih =>
    intro p w sl
    rw [sendLoop]
    simp only [hm, if_true, hc, if_false, ite_false]
    rw [ih (p + 1) (w + 1) sl]
    have hp : p + 1 + n = p + (n + 1) := by omega
    have hw : w + 1 + n = w + (n + 1) := by omega
    rw [hp, hw]

/-- C1: The spec says a non-200 HTTP status is terminal for the tick — no
further attempt is made.  The code disagrees: with MAX_RETRIES at its
default 3, a server that answers every POST with status 500 keeps the loop
running for any amount of fuel, with one fresh POST and one warning per
iteration, while the retry counter stays 0 and no backoff sleep ever
happens (the attempt counter and backoff are indeed engaged only by
transport-level failures, but the non-200 branch falls through to an
unbounded immediate re-POST instead of returning). -/
theorem C1_non200_is_not_terminal (backoffFactor : ℚ) (fuel : ℕ) :
    send_data_to_server 3 backoffFactor (fun _ => AttemptResult.status 500) fuel =
      SendResult.fuelOut ⟨0, fuel, [], fuel⟩ := by
  have h := sendLoop_non200_runs_forever 3 backoffFactor 500 (by decide) (by decide)
    fuel 0 0 []
  simpa [send_data_to_server] using h

/-- Expected list of backoff waits when the run starts with `r` retries
already counted and performs `n` further transport-failing attempts: the
wait recorded by the i-th of those attempts is backoffFactor ^ (r + 1 + i). -/
def expectedSleeps (backoffFactor : ℚ) (r : ℕ) : ℕ → List ℚ
  | 0 => []
  | n + 1 => backoffFactor ^ (r + 1) :: expectedSleeps backoffFactor (r + 1) n

theorem map_range_succ_left (f : ℕ → ℚ) (n : ℕ) :
    (List.range (n + 1)).map f = f 0 :: (List.range n).map (fun i => f (i + 1)) := by
  rw [List.range_succ_eq_map, List.map_cons, List.map_map]
  rfl

theorem expectedSleeps_eq_map (backoffFactor : ℚ) :
    ∀ n r : ℕ, expectedSleeps backoffFactor r n =
      (List.range n).map (fun i => backoffFactor ^ (r + 1 + i)) := by
  intro n
  induction n with
  | zero => intro r; rfl
  | succ m ih =>
    intro r
    rw [map_range_succ_left, expectedSleeps, ih (r + 1)]
    show backoffFactor ^ (r + 1) ::
        (List.range m).map (fun i => backoffFactor ^ (r + 1 + 1 + i)) =
      backoffFactor ^ (r + 1 + 0) ::
        (List.range m).map (fun i => backoffFactor ^ (r + 1 + (i + 1)))
    have h0 : r + 1 + 0 = r + 1 := by omega
    have htail : (fun i => backoffFactor ^ (r + 1 + 1 + i)) =
        fun i : ℕ => backoffFactor ^ (r + 1 + (i + 1)) := by
      funext i
      congr 1
      omega
    rw [h0, htail]

/-- When every POST fails at the transport level, the loop runs the retry
counter from r up to maxRetries, issuing one POST and one backoff sleep per
step, and then exits through the gaveUp branch. -/
theorem sendLoop_transport_exhausts (maxRetries : ℕ) (backoffFactor : ℚ) :
    ∀ fuel r p w : ℕ, ∀ sl : List ℚ, r ≤ maxRetries → maxRetries - r < fuel →
      sendLoop maxRetries backoffFactor (fun _ => AttemptResult.transportError) fuel
          ⟨r, p, sl, w⟩ =
        SendResult.gaveUp
          ⟨maxRetries, p + (maxRetries - r),
           sl ++ expectedSleeps backoffFactor r (maxRetries - r), w⟩ := by
  intro fuel
  induction fuel with
  | zero => intro r p w sl hr hf; omega
  | succ n ih =>
    intro r p w sl hr hf
    rw [sendLoop]
    by_cases h : r < maxRetries
    · simp only [h, if_true]
      rw [ih (r + 1) (p + 1) w (sl ++ [backoffFactor ^ (r + 1)]) (by omega) (by omega)]
      have hk : maxRetries - r = (maxRetries - (r + 1)) + 1 := by omega
      rw [hk, expectedSleeps]
      have h1 : p + 1 + (maxRetries - (r + 1)) = p + (maxRetries - (r + 1) + 1) := by
        omega
      rw [h1, List.append_assoc, List.singleton_append]
    · simp only [h, if_false]
      have hr0 : r = maxRetries := by omega
      subst hr0
      simp [expectedSleeps]

/-- C5: Given a central-sink transport that always fails, the send operation
issues exactly maxRetries POST attempts, records no success (the run ends
in the gaveUp branch, which logs at critical severity and returns normally
to the caller — the ClientError is caught inside the loop, so nothing is
raised), and performs the maxRetries backoff sleeps along the way.  Stated
for every fuel budget of at least maxRetries + 1, so the bound does not
depend on the fuel. -/
theorem C5_always_failing_transport_stops_after_max_retries
    (maxRetries extra : ℕ) (backoffFactor : ℚ) :
    send_data_to_server maxRetries backoffFactor (fun _ => AttemptResult.transportError)
        (maxRetries + 1 + extra) =
      SendResult.gaveUp
        ⟨maxRetries, maxRetries, expectedSleeps backoffFactor 0 maxRetries, 0⟩ := by
  have h := sendLoop_transport_exhausts maxRetries backoffFactor
    (maxRetries + 1 + extra) 0 0 0 [] (by omega) (by omega)
  simpa [send_data_to_server] using h

/-- C4: In the all-transport-failure run, the wait recorded before retry
attempt k (the k-th element of the sleep list, k starting at 1) is
BACKOFF_FACTOR ^ k, and for BACKOFF_FACTOR > 1 the waits are pairwise
strictly increasing in order. -/
theorem C4_backoff_waits (maxRetries extra : ℕ) (backoffFactor : ℚ)
    (hbf : 1 < backoffFactor) :
    (send_data_to_server maxRetries backoffFactor (fun _ => AttemptResult.transportError)
          (maxRetries + 1 + extra)).state.sleeps =
        (List.range maxRetries).map (fun i => backoffFactor ^ (i + 1))
      ∧ ((send_data_to_server maxRetries backoffFactor (fun _ => AttemptResult.transportError)
          (maxRetries + 1 + extra)).state.sleeps).Pairwise (· < ·) := by
  have hrun := C5_always_failing_transport_stops_after_max_retries
    maxRetries extra backoffFactor
  have hsl : (send_data_to_server maxRetries backoffFactor
      (fun _ => AttemptResult.transportError) (maxRetries + 1 + extra)).state.sleeps =
      (List.range maxRetries).map (fun i => backoffFactor ^ (i + 1)) := by
    rw [hrun]
    show expectedSleeps backoffFactor 0 maxRetries = _
    rw [expectedSleeps_eq_map]
    congr 1
    funext i
    congr 1
    omega
  refine ⟨hsl, ?_⟩
  rw [hsl, List.pairwise_map]
  exact (List.pairwise_lt_range maxRetries).imp
    (fun hab => pow_lt_pow_right₀ hbf (by omega))

theorem C4_backoff_waits_witness :
    (send_data_to_server 3 (3 / 2 : ℚ) (fun _ => AttemptResult.transportError)
          4).state.sleeps =
        (List.range 3).map (fun i => (3 / 2 : ℚ) ^ (i + 1))
      ∧ ((send_data_to_server 3 (3 / 2 : ℚ) (fun _ => AttemptResult.transportError)
          4).state.sleeps).Pairwise (· < ·) :=
  C4_backoff_waits 3 0 (3 / 2) (by norm_num)

/-! ## ThresholdNotifier: check_thresholds_and_notify, generate_notification,
get_notifications (src/agent.py lines 362-379 and 429-437) -/

/-- Python's substring containment test `needle in hay` on strings. -/
def strIn (needle hay : String) : Bool := decide (needle.toList <:+: hay.toList)

/-- generate_notification (lines 429-433): append the message string to the
process-wide NOTIFICATIONS list.  The stored notification is exactly the
message passed in — nothing more is attached to it. -/
def generate_notification (message : String) (st : AgentState) : AgentState :=
  { st with notifications := st.notifications ++ [message] }

/-- get_notifications (lines 435-437): the notifications whose message
contains the given computer name as a substring. -/
def get_notifications (computer_name : String) (notifications : List String) :
    List String :=
  notifications.filter (fun n => strIn computer_name n)

/-- String rendering of a rational metric value, standing in for Python's
str() on the float value interpolated into the f-string messages. -/
def ratStr (q : ℚ) : String :=
  if q.den = 1 then toString q.num else toString q.num ++ "/" ++ toString q.den

/-- The CPU threshold message of line 366. -/
def cpuMessage (v : ℚ) : String := "CPU usage is above threshold: " ++ ratStr v ++ "%"

/-- The memory threshold message of line 370. -/
def memoryMessage (v : ℚ) : String :=
  "Memory usage is above threshold: " ++ ratStr v ++ "%"

/-- The disk threshold message of line 374. -/
def diskMessage (v : ℚ) : String :=
  "Disk usage is above threshold: " ++ ratStr v ++ "%"

/-- A Python runtime error surfacing out of an embedded function. -/
inductive PyError where
  | unboundLocalError (name : String)
deriving DecidableEq, Repr

/-- check_thresholds_and_notify (src/agent.py lines 362-379).  The three
metric checks each append one notification when the metric value is
strictly greater than its configured threshold.  The static-IP check then
reads the name PREVIOUS_STATIC_IPS at line 377; because line 379 assigns
that name inside the function body without a global declaration, Python
scoping makes the name local to the entire function, and the read at line
377 happens before any assignment to it, so reaching line 377
unconditionally raises UnboundLocalError.  The comparison, the change
notification of line 378 and the baseline overwrite of line 379 are
therefore dead code: the function always propagates the error to its
caller, with the metric notifications already appended (list mutation is
not rolled back) and previous_static_ips untouched. -/
def check_thresholds_and_notify (cfg : Thresholds) (si : SystemInfo)
    (st : AgentState) : AgentState × Except PyError Unit :=
  let st1 := if si.general_info.cpu_usage > cfg.cpu_usage_threshold then
    generate_notification (cpuMessage si.general_info.cpu_usage) st else st
  let st2 := if si.general_info.memory_usage > cfg.memory_usage_threshold then
    generate_notification (memoryMessage si.general_info.memory_usage) st1 else st1
  let st3 := if si.general_info.disk_usage > cfg.disk_usage_threshold then
    generate_notification (diskMessage si.general_info.disk_usage) st2 else st2
  (st3, Except.error (PyError.unboundLocalError "PREVIOUS_STATIC_IPS"))

/-- A Snapshot with all metrics far below the default thresholds and the
static-address list ["10.0.0.6"], observed against the remembered baseline
["10.0.0.5"]. -/
def snapshotC2 : SystemInfo :=
  { general_info :=
      { computer_name := "CLINIC-01"
        cpu_usage := 50
        memory_usage := 50
        disk_usage := 50
        network_data :=
          { upload_speed_mbps := "1.00 Mbps", download_speed_mbps := "2.00 Mbps" }
        ip_addresses :=
          { internal_ip := "192.168.0.2"
            external_ip := "41.90.0.1"
            static_ips := ["10.0.0.6"] } }
    application_info :=
      { smartcare := { status := false, process_name := "SmartCareProcessName" }
        sql_server := { status := true, process_name := "sqlservr" }
        smartlink := { status := false, process_name := "SmartLinkProcessName" }
        etims := { status := false, process_name := "ETIMSProcessName" }
        tims := { status := false, process_name := "TIMSProcessName" } }
    timestamp := 1700000000 }

/-- C2: The spec says a Snapshot whose static-address set differs from the
remembered one makes the threshold evaluation emit exactly one change
Notification, overwrite the baseline, and return normally.  The code
instead raises UnboundLocalError at the comparison itself (the line-379
assignment without a global declaration makes PREVIOUS_STATIC_IPS local and
unassigned at the line-377 read), so on the spec's own example — baseline
["10.0.0.5"], Snapshot carrying ["10.0.0.6"] — no notification is emitted,
the baseline is left at ["10.0.0.5"], and the call ends in an error, not a
normal return. -/
theorem C2_static_ip_change_raises_unbound_local :
    check_thresholds_and_notify ⟨80, 80, 80⟩ snapshotC2 ⟨["10.0.0.5"], []⟩ =
      (⟨["10.0.0.5"], []⟩,
        Except.error (PyError.unboundLocalError "PREVIOUS_STATIC_IPS")) := by
  rfl

/-- C10: Threshold comparison is strict.  The notifications appended by one
evaluation are exactly those of the metrics whose value is strictly greater
than the configured threshold — in particular a metric exactly equal to its
threshold contributes nothing, because the strict test of lines 365, 369
and 373 fails at equality. -/
theorem C10_threshold_comparison_is_strict (cfg : Thresholds) (si : SystemInfo)
    (st : AgentState) :
    (check_thresholds_and_notify cfg si st).1.notifications =
      st.notifications
        ++ (if si.general_info.cpu_usage > cfg.cpu_usage_threshold
            then [cpuMessage si.general_info.cpu_usage] else [])
        ++ (if si.general_info.memory_usage > cfg.memory_usage_threshold
            then [memoryMessage si.general_info.memory_usage] else [])
        ++ (if si.general_info.disk_usage > cfg.disk_usage_threshold
            then [diskMessage si.general_info.disk_usage] else []) := by
  unfold check_thresholds_and_notify generate_notification
  split_ifs <;> simp [List.append_assoc]

/-- A Snapshot for host "HOST-7" whose CPU usage 95 exceeds the default
threshold 80 while everything else is quiet. -/
def snapshotC3 : SystemInfo :=
  { general_info :=
      { computer_name := "HOST-7"
        cpu_usage := 95
        memory_usage := 10
        disk_usage := 10
        network_data :=
          { upload_speed_mbps := "1.00 Mbps", download_speed_mbps := "2.00 Mbps" }
        ip_addresses :=
          { internal_ip := "192.168.0.2"
            external_ip := "41.90.0.1"
            static_ips := [] } }
    application_info :=
      { smartcare := { status := false, process_name := "SmartCareProcessName" }
        sql_server := { status := true, process_name := "sqlservr" }
        smartlink := { status := false, process_name := "SmartLinkProcessName" }
        etims := { status := false, process_name := "ETIMSProcessName" }
        tims := { status := false, process_name := "TIMSProcessName" } }
    timestamp := 1700000000 }

/-- C3 counterexample: the threshold Notification emitted for host "HOST-7"
(CPU at 95 against threshold 80) is the bare message string, which does not
contain the host identifier, so the query for "HOST-7" over the resulting
notification list returns nothing — the claim that a threshold Notification
emitted for host H is returned by a query for H is false. -/
theorem C3_counterexample :
    (check_thresholds_and_notify ⟨80, 80, 80⟩ snapshotC3 ⟨[], []⟩).1.notifications =
        ["CPU usage is above threshold: 95%"]
      ∧ get_notifications "HOST-7" ["CPU usage is above threshold: 95%"] = [] := by
  constructor
  · rfl
  · rfl

/-- C3 amended: Notifications stored by the threshold notifier are bare
message strings carrying no host identifier — the notification list
produced from a Snapshot is unchanged under any change of the Snapshot's
computer_name — and the query operation, given a string, returns exactly
the stored notifications containing that string as a substring of the
message. -/
theorem C3_amended_query_is_substring_filter :
    (∀ (name n : String) (l : List String),
        n ∈ get_notifications name l ↔ n ∈ l ∧ strIn name n = true)
    ∧ (∀ (cfg : Thresholds) (si : SystemInfo) (st : AgentState) (newName : String),
        (check_thresholds_and_notify cfg
            { si with general_info :=
                { si.general_info with computer_name := newName } } st).1.notifications =
          (check_thresholds_and_notify cfg si st).1.notifications) := by
  constructor
  · intro name n l
    unfold get_notifications
    exact List.mem_filter
  · intro cfg si st newName
    rfl

/-! ## Ledger: write_to_csv (src/agent.py lines 78-110) -/

/-- The fixed 16-column header of the CSV ledger (the fieldnames list of
write_to_csv). -/
def fieldnames : List String :=
  ["Title", "ComputerName", "CPUUsage", "MemoryUsage", "DiskUsage",
   "NetworkUpload", "NetworkDownload", "SmartCareStatus",
   "SQLServerStatus", "SmartLinkStatus", "ETIMSStatus",
   "TIMSStatus", "InternalIP", "ExternalIP", "StaticIPs", "Timestamp"]

/-- The "Running"/"Stopped" rendering of an application liveness boolean
used by both write_to_csv and the delivery payloads. -/
def statusString (b : Bool) : String := if b then "Running" else "Stopped"

/-- The row written for one Snapshot, in fieldnames order (lines 91-108).
The numeric utilization values are stringified by the csv writer (ratStr
stands in for Python's str on the float); `iso` renders the epoch timestamp
as datetime.fromtimestamp(...).isoformat() does — the calendar arithmetic
itself is kept as a parameter. -/
def csvRow (iso : ℚ → String) (d : SystemInfo) : List String :=
  ["Server Status - " ++ d.general_info.computer_name,
   d.general_info.computer_name,
   ratStr d.general_info.cpu_usage,
   ratStr d.general_info.memory_usage,
   ratStr d.general_info.disk_usage,
   d.general_info.network_data.upload_speed_mbps,
   d.general_info.network_data.download_speed_mbps,
   statusString d.application_info.smartcare.status,
   statusString d.application_info.sql_server.status,
   statusString d.application_info.smartlink.status,
   statusString d.application_info.etims.status,
   statusString d.application_info.tims.status,
   d.general_info.ip_addresses.internal_ip,
   d.general_info.ip_addresses.external_ip,
   String.intercalate ", " d.general_info.ip_addresses.static_ips,
   iso d.timestamp]

/-- write_to_csv: the backing file is modelled as Option (none = the file
does not exist yet, os.path.isfile is False).  On first creation the header
row is written, then the data row; on an existing file the data row is
appended and no header is written. -/
def write_to_csv (iso : ℚ → String) (file : Option (List (List String)))
    (d : SystemInfo) : List (List String) :=
  match file with
  | none => [fieldnames, csvRow iso d]
  | some rows => rows ++ [csvRow iso d]

/-- The file contents after a sequence of ticks each appending one
Snapshot, starting from a given file state. -/
def writeSeq (iso : ℚ → String) :
    Option (List (List String)) → List SystemInfo → Option (List (List String))
  | file, [] => file
  | file, d :: ds => writeSeq iso (some (write_to_csv iso file d)) ds

theorem writeSeq_some (iso : ℚ → String) :
    ∀ (ds : List SystemInfo) (rows : List (List String)),
      writeSeq iso (some rows) ds = some (rows ++ ds.map (csvRow iso)) := by
  intro ds
  induction ds with
  | nil => intro rows; simp [writeSeq]
  | cons d ds ih =>
    intro rows
    rw [writeSeq, write_to_csv, ih, List.map_cons, List.append_assoc,
      List.singleton_append]

/-- A data row can never coincide with the header row: its first field
starts with the 16-character prefix "Server Status - ", while the header's
first field is the 5-character "Title". -/
theorem csvRow_ne_fieldnames (iso : ℚ → String) (d : SystemInfo) :
    csvRow iso d ≠ fieldnames := by
  intro h
  simp only [csvRow, fieldnames, List.cons.injEq] at h
  obtain ⟨h0, -⟩ := h
  have hlen : ("Server Status - " ++ d.general_info.computer_name).length =
      ("Title" : String).length := congrArg String.length h0
  rw [String.length_append] at hlen
  have h16 : ("Server Status - " : String).length = 16 := by decide
  have h5 : ("Title" : String).length = 5 := by decide
  omega

/-- C8: For every Snapshot the appended ledger row has exactly 16 fields
(matching the 16-column header) whose values are the Snapshot's source
fields under the documented renderings, and across any run that starts
with no backing file the header row appears exactly once, at the top —
appends to an existing file write no header. -/
theorem C8_ledger_row_and_header (iso : ℚ → String) (d : SystemInfo)
    (ds : List SystemInfo) (rows : List (List String)) :
    fieldnames.length = 16
    ∧ (csvRow iso d).length = 16
    ∧ write_to_csv iso none d = [fieldnames, csvRow iso d]
    ∧ write_to_csv iso (some rows) d = rows ++ [csvRow iso d]
    ∧ writeSeq iso none (d :: ds) = some (fieldnames :: (d :: ds).map (csvRow iso))
    ∧ (fieldnames :: (d :: ds).map (csvRow iso)).count fieldnames = 1 := by
  refine ⟨rfl, rfl, rfl, rfl, ?_, ?_⟩
  · rw [writeSeq, write_to_csv, writeSeq_some]
    rw [List.map_cons]
    rfl
  · have hc : ((d :: ds).map (csvRow iso)).count fieldnames = 0 := by
      rw [List.count_eq_zero]
      intro hmem
      obtain ⟨x, hx, hxe⟩ := List.mem_map.mp hmem
      exact csvRow_ne_fieldnames iso x hxe
    rw [List.count_cons_self, hc]

/-! ## Sampler: application liveness (src/agent.py lines 44-51, 112-137) -/

/-- One entry of the APPLICATIONS registry: configured process-name
substring and TCP port. -/
structure AppConfig where
  process_name : String
  port : ℕ
deriving DecidableEq, Repr

/-- The APPLICATIONS registry (lines 45-51), fixed for the process
lifetime. -/
def APPLICATIONS : List (String × AppConfig) :=
  [("smartcare", { process_name := "SmartCareProcessName", port := 8080 }),
   ("sql_server", { process_name := "sqlservr", port := 1433 }),
   ("smartlink", { process_name := "SmartLinkProcessName", port := 3307 }),
   ("etims", { process_name := "ETIMSProcessName", port := 8000 }),
   ("tims", { process_name := "TIMSProcessName", port := 8089 })]

/-- check_process_running (lines 112-120).  psutil.process_iter is modelled
by the list of process-name attributes visible to the iteration (none for a
process whose name attribute is None; processes that vanish or deny access
are skipped by the source and simply absent here).  A process counts when
its name is truthy (neither None nor empty) and case-insensitively contains
the configured substring. -/
def check_process_running (procNames : List (Option String))
    (process_name : String) : Bool :=
  procNames.any fun info =>
    match info with
    | some nm => !nm.isEmpty && strIn process_name.toLower nm.toLower
    | none => false

/-- check_port_open (lines 122-125): connect_ex returning 0 is modelled by
membership in the environment's list of localhost ports accepting a TCP
connection. -/
def check_port_open (openPorts : List ℕ) (port : ℕ) : Bool :=
  openPorts.contains port

/-- collect_application_status (lines 127-137): for each configured
application, liveness is the conjunction of the process check and the port
check. -/
def collect_application_status (procNames : List (Option String))
    (openPorts : List ℕ) : List (String × ApplicationEntry) :=
  APPLICATIONS.map fun p =>
    (p.1,
     { status := check_process_running procNames p.2.process_name &&
         check_port_open openPorts p.2.port,
       process_name := p.2.process_name })

theorem check_process_running_iff (procNames : List (Option String))
    (pn : String) :
    check_process_running procNames pn = true ↔
      ∃ nm : String, some nm ∈ procNames ∧ nm ≠ "" ∧
        pn.toLower.toList <:+: nm.toLower.toList := by
  unfold check_process_running
  rw [List.any_eq_true]
  constructor
  · rintro ⟨info, hmem, hsat⟩
    match info with
    | some nm =>
      rw [Bool.and_eq_true] at hsat
      obtain ⟨hne, hin⟩ := hsat
      refine ⟨nm, hmem, ?_, ?_⟩
      · intro he
        rw [he] at hne
        exact absurd hne (by decide)
      · unfold strIn at hin
        exact of_decide_eq_true hin
    | none => simp at hsat
  · rintro ⟨nm, hmem, hne, hinf⟩
    refine ⟨some nm, hmem, ?_⟩
    rw [Bool.and_eq_true]
    constructor
    · have hb : nm.isEmpty = false := by
        cases hb2 : nm.isEmpty with
        | false => rfl
        | true => exact absurd ((String.isEmpty_iff nm).mp hb2) hne
      rw [hb]
      rfl
    · unfold strIn
      exact decide_eq_true hinf

/-- C9: For every configured application, the collected liveness status is
true exactly when some running process has a truthy name that
case-insensitively contains the configured substring AND the configured
localhost TCP port accepts a connection; `statusString` renders true as
"Running" and false as "Stopped", so either condition failing reports
"Stopped" and only both-true reports "Running". -/
theorem C9_liveness_is_process_and_port (procNames : List (Option String))
    (openPorts : List ℕ) (name : String) (cfg : AppConfig)
    (h : (name, cfg) ∈ APPLICATIONS) :
    (name,
      { status := check_process_running procNames cfg.process_name &&
          check_port_open openPorts cfg.port,
        process_name := cfg.process_name : ApplicationEntry }) ∈
        collect_application_status procNames openPorts
    ∧ ((check_process_running procNames cfg.process_name &&
          check_port_open openPorts cfg.port) = true ↔
        ((∃ nm : String, some nm ∈ procNames ∧ nm ≠ "" ∧
            cfg.process_name.toLower.toList <:+: nm.toLower.toList)
          ∧ cfg.port ∈ openPorts))
    ∧ statusString true = "Running" ∧ statusString false = "Stopped" := by
  refine ⟨?_, ?_, rfl, rfl⟩
  · exact List.mem_map_of_mem _ h
  · rw [Bool.and_eq_true, check_process_running_iff]
    unfold check_port_open
    simp

theorem C9_liveness_is_process_and_port_witness :
    ("sql_server", { process_name := "sqlservr", port := 1433 : AppConfig }) ∈
        APPLICATIONS
    ∧ (("sql_server",
        { status := check_process_running [some "SQLSERVR.exe"] "sqlservr" &&
            check_port_open [1433] 1433,
          process_name := "sqlservr" : ApplicationEntry }) ∈
          collect_application_status [some "SQLSERVR.exe"] [1433]
      ∧ ((check_process_running [some "SQLSERVR.exe"] "sqlservr" &&
            check_port_open [1433] 1433) = true ↔
          ((∃ nm : String, some nm ∈ [some "SQLSERVR.exe"] ∧ nm ≠ "" ∧
              ("sqlservr" : String).toLower.toList <:+: nm.toLower.toList)
            ∧ 1433 ∈ [1433]))
      ∧ statusString true = "Running" ∧ statusString false = "Stopped") :=
  ⟨by decide,
   C9_liveness_is_process_and_port [some "SQLSERVR.exe"] [1433] "sql_server"
     { process_name := "sqlservr", port := 1433 } (by decide)⟩

/-! ## ThrottledDirectorySink: send_data_to_sharepoint
(src/agent.py lines 294-360) -/

/-- A value of the SharePoint list-item "fields" dictionary: the metric
fields are sent as JSON numbers, the rest as strings. -/
inductive FieldValue where
  | str (s : String)
  | num (q : ℚ)
deriving DecidableEq, Repr

/-- The "fields" dictionary of the list-item payload (lines 312-331), built
afresh from the same Snapshot on every attempt — including the recursive
retry after a 429 — so every rebuild is the identical value. -/
def listItemFields (iso : ℚ → String) (d : SystemInfo) :
    List (String × FieldValue) :=
  [("Title", FieldValue.str ("Server Status - " ++ d.general_info.computer_name)),
   ("ComputerName", FieldValue.str d.general_info.computer_name),
   ("CPUUsage", FieldValue.num d.general_info.cpu_usage),
   ("MemoryUsage", FieldValue.num d.general_info.memory_usage),
   ("DiskUsage", FieldValue.num d.general_info.disk_usage),
   ("NetworkUpload", FieldValue.str d.general_info.network_data.upload_speed_mbps),
   ("NetworkDownload",
     FieldValue.str d.general_info.network_data.download_speed_mbps),
   ("SmartCareStatus",
     FieldValue.str (statusString d.application_info.smartcare.status)),
   ("SQLServerStatus",
     FieldValue.str (statusString d.application_info.sql_server.status)),
   ("SmartLinkStatus",
     FieldValue.str (statusString d.application_info.smartlink.status)),
   ("ETIMSStatus", FieldValue.str (statusString d.application_info.etims.status)),
   ("TIMSStatus", FieldValue.str (statusString d.application_info.tims.status)),
   ("InternalIP", FieldValue.str d.general_info.ip_addresses.internal_ip),
   ("ExternalIP", FieldValue.str d.general_info.ip_addresses.external_ip),
   ("StaticIPs",
     FieldValue.str
       (String.intercalate ", " d.general_info.ip_addresses.static_ips)),
   ("Timestamp", FieldValue.str (iso d.timestamp))]

/-- One response of the graph list-items endpoint: the HTTP status code and
the optional Retry-After header value in seconds (already parsed; the
source reads headers.get with default string "1" and applies int). -/
structure SpResponse where
  code : ℕ
  retryAfter : Option ℕ
deriving DecidableEq, Repr

/-- Observable trace of one send_data_to_sharepoint call: the payloads
POSTed in order and the throttling sleeps performed in order. -/
structure SpState where
  posts : List (List (String × FieldValue))
  sleeps : List ℕ
deriving DecidableEq, Repr

/-- How the SharePoint delivery ends: 201 success, some other terminal
status (logged as an error), a token-acquisition failure (logged, no POST
at all), or fuel exhaustion of the modelling recursion. -/
inductive SpOutcome where
  | success (s : SpState)
  | otherStatus (code : ℕ) (s : SpState)
  | tokenFailure
  | fuelOut (s : SpState)
deriving DecidableEq, Repr

/-- The POST-and-handle part of send_data_to_sharepoint (lines 341-354).
`net n` is the response to the (n+1)-th POST.  201 succeeds; 429 sleeps
int(headers.get('Retry-After', '1')) seconds — so 1 second when the header
is absent — and then re-sends the identical payload (the source recurses
into the whole function, which re-acquires the cached token and rebuilds
the same list_item from the same data); any other status is logged and
terminal. -/
def spLoop (iso : ℚ → String) (d : SystemInfo) (net : ℕ → SpResponse) :
    ℕ → SpState → SpOutcome
  | 0, s => SpOutcome.fuelOut s
  | fuel + 1, s =>
    let resp := net s.posts.length
    let s1 : SpState := { s with posts := s.posts ++ [listItemFields iso d] }
    if resp.code = 201 then
      SpOutcome.success s1
    else if resp.code = 429 then
      spLoop iso d net fuel { s1 with sleeps := s1.sleeps ++ [resp.retryAfter.getD 1] }
    else
      SpOutcome.otherStatus resp.code s1

/-- send_data_to_sharepoint: if the token flow fails, log and stop without
posting; otherwise run the POST/throttle recursion from the empty trace. -/
def send_data_to_sharepoint (iso : ℚ → String) (d : SystemInfo) (tokenOk : Bool)
    (net : ℕ → SpResponse) (fuel : ℕ) : SpOutcome :=
  if tokenOk then spLoop iso d net fuel ⟨[], []⟩ else SpOutcome.tokenFailure

/-- C6: Against an endpoint answering the first POST with 429 and
Retry-After: 5 and the second with 201, the directory sink makes exactly
one retry (two POSTs in total), the retried payload is the identical
list-item value, the single throttling sleep is 5 seconds (so the retry is
delayed by at least 5 seconds), and the outcome is success; when the 429
carries no Retry-After header the sleep defaults to 1 second. -/
theorem C6_throttled_retry_after (iso : ℚ → String) (d : SystemInfo) :
    send_data_to_sharepoint iso d true
        (fun n => if n = 0 then ⟨429, some 5⟩ else ⟨201, none⟩) 2 =
      SpOutcome.success ⟨[listItemFields iso d, listItemFields iso d], [5]⟩
    ∧ send_data_to_sharepoint iso d true
        (fun n => if n = 0 then ⟨429, none⟩ else ⟨201, none⟩) 2 =
      SpOutcome.success ⟨[listItemFields iso d, listItemFields iso d], [1]⟩ := by
  constructor <;> rfl

/-! ## AgentLoop: one tick of main_loop (src/agent.py lines 381-403) -/

/-- Observable events of one tick, after the sampling step: the CSV append,
the k-th step of either sink delivery, the threshold evaluation, the error
log of a failed collection, and the interval sleep. -/
inductive TickEvent where
  | ledgerAppend
  | centralSinkStep (k : ℕ)
  | directorySinkStep (k : ℕ)
  | evaluate
  | collectFailureLogged
  | sleepInterval
deriving DecidableEq, Repr

/-- An interleaving of two event streams driven by a scheduler oracle:
true picks the next event of the first stream, false of the second; an
exhausted oracle or stream lets the rest run without choice.  This models
how the event loop may interleave the two coroutines inside
asyncio.gather, which returns only once both are finished. -/
def interleave {α : Type} : List Bool → List α → List α → List α
  | [], xs, ys => xs ++ ys
  | true :: sched, xs, ys =>
    match xs with
    | [] => ys
    | x :: xs => x :: interleave sched xs ys
  | false :: sched, xs, ys =>
    match ys with
    | [] => xs
    | y :: ys => y :: interleave sched xs ys

theorem interleave_length {α : Type} :
    ∀ (sched : List Bool) (xs ys : List α),
      (interleave sched xs ys).length = xs.length + ys.length := by
  intro sched
  induction sched with
  | nil => intro xs ys; simp [interleave]
  | cons b sched ih =>
    intro xs ys
    cases b with
    | true =>
      cases xs with
      | nil => simp [interleave]
      | cons x xs => simp [interleave, ih]; omega
    | false =>
      cases ys with
      | nil => simp [interleave]
      | cons y ys => simp [interleave, ih]; omega

theorem interleave_sublist_left {α : Type} :
    ∀ (sched : List Bool) (xs ys : List α), List.Sublist xs (interleave sched xs ys) := by
  intro sched
  induction sched with
  | nil => intro xs ys; exact List.sublist_append_left xs ys
  | cons b sched ih =>
    intro xs ys
    cases b with
    | true =>
      cases xs with
      | nil => exact List.nil_sublist _
      | cons x xs => exact List.Sublist.cons₂ x (ih xs ys)
    | false =>
      cases ys with
      | nil => exact List.Sublist.refl xs
      | cons y ys => exact List.Sublist.cons y (ih xs ys)

theorem interleave_sublist_right {α : Type} :
    ∀ (sched : List Bool) (xs ys : List α), List.Sublist ys (interleave sched xs ys) := by
  intro sched
  induction sched with
  | nil => intro xs ys; exact List.sublist_append_right xs ys
  | cons b sched ih =>
    intro xs ys
    cases b with
    | true =>
      cases xs with
      | nil => exact List.Sublist.refl ys
      | cons x xs => exact List.Sublist.cons x (ih xs ys)
    | false =>
      cases ys with
      | nil => exact List.nil_sublist _
      | cons y ys => exact List.Sublist.cons₂ y (ih xs ys)

/-- One tick of main_loop after collect_system_info returns.  When a
Snapshot was produced: write_to_csv runs first (a plain synchronous call,
completed before the gather is even constructed), then asyncio.gather runs
the two sink deliveries — their internal steps interleaved by the event
loop — and only after both have finished does check_thresholds_and_notify
run, followed by the interval sleep.  When collection failed, only the
error log and the sleep happen. -/
def mainLoopTick (collected : Bool)
    (centralEvents directoryEvents : List TickEvent) (sched : List Bool) :
    List TickEvent :=
  if collected then
    TickEvent.ledgerAppend ::
      (interleave sched centralEvents directoryEvents ++
        [TickEvent.evaluate, TickEvent.sleepInterval])
  else
    [TickEvent.collectFailureLogged, TickEvent.sleepInterval]

/-- C7: In a tick whose sampling produced a Snapshot, the ledger append is
the very first event — before any step of either sink — and the threshold
evaluation sits at the position immediately after the delivery phase, which
contains every step of both sink deliveries (each delivery's own event
order preserved, and nothing else), for every possible scheduler
interleaving of the two concurrent deliveries. -/
theorem C7_tick_ordering (centralEvents directoryEvents : List TickEvent)
    (sched : List Bool) :
    (mainLoopTick true centralEvents directoryEvents sched)[0]? =
        some TickEvent.ledgerAppend
    ∧ mainLoopTick true centralEvents directoryEvents sched =
        TickEvent.ledgerAppend ::
          (interleave sched centralEvents directoryEvents ++
            [TickEvent.evaluate, TickEvent.sleepInterval])
    ∧ List.Sublist centralEvents (interleave sched centralEvents directoryEvents)
    ∧ List.Sublist directoryEvents (interleave sched centralEvents directoryEvents)
    ∧ (interleave sched centralEvents directoryEvents).length =
        centralEvents.length + directoryEvents.length
    ∧ (mainLoopTick true centralEvents directoryEvents
          sched)[(interleave sched centralEvents directoryEvents).length + 1]? =
        some TickEvent.evaluate := by
  refine ⟨?_, ?_, interleave_sublist_left sched _ _,
    interleave_sublist_right sched _ _, interleave_length sched _ _, ?_⟩
  · simp [mainLoopTick]
  · rfl
  show (TickEvent.ledgerAppend ::
      (interleave sched centralEvents directoryEvents ++
        [TickEvent.evaluate, TickEvent.sleepInterval]))[(interleave sched
          centralEvents directoryEvents).length + 1]? = some TickEvent.evaluate
  rw [List.getElem?_cons_succ, List.getElem?_append_right (Nat.le_refl _)]
  simp

end ServerMonitor
